import Mathlib

/-!
Verification development for a Snakes & Ladders game engine
(`src/SnakeAndLadder.cpp`). The C++ classes are shallowly embedded as Lean
structures and pure functions; console output (`cout`) and observer
notifications (`notify`) are tracked as explicit string logs so that the
two reporting channels can be distinguished. C++ `int` is modelled as
`Int` (no overflow occurs in the quantities the game manipulates).
-/

namespace SnakeAndLadder

/-- The two entity kinds, `Snake` and `Ladder` subclasses in the source. -/
inductive EntityKind where
  | snake
  | ladder
  deriving DecidableEq, Repr

/-- `BoardEntity`: base class holding `startIndex` and `endIndex`. -/
structure BoardEntity where
  kind : EntityKind
  startIndex : Int
  endIndex : Int
  deriving DecidableEq, Repr

/-- `BoardEntity::name()`: virtual, returns "SNAKE" or "LADDER". -/
def BoardEntity.name (e : BoardEntity) : String :=
  match e.kind with
  | .snake => "SNAKE"
  | .ladder => "LADDER"

/-- `Snake::Snake(start, end)`: constructs the entity with the given indices
unconditionally; when `end >= start` it additionally prints a configuration
warning (second component of the result). -/
def mkSnake (s e : Int) : BoardEntity × List String :=
  (⟨.snake, s, e⟩,
   if e ≥ s then
     ["Invalid snake configuration: endIndex must be less than startIndex."]
   else [])

/-- `Ladder::Ladder(start, end)`: constructs the entity with the given indices
unconditionally; when `end <= start` it additionally prints a configuration
warning (second component of the result). -/
def mkLadder (s e : Int) : BoardEntity × List String :=
  (⟨.ladder, s, e⟩,
   if e ≤ s then
     ["Invalid ladder configuration: endIndex must be greater than startIndex."]
   else [])

/-- `Board`: `cellCount` plus the entity containers. `entityMap` is the
`map<int, BoardEntity*>` modelled as an association list (insertions are
guarded by `canAddEntity`, so keys are never duplicated and lookup order is
irrelevant); `entitiesList` is the `vector<BoardEntity*>` in insertion
order, used only by `display()`. -/
structure Board where
  cellCount : Int
  entitiesList : List BoardEntity
  entityMap : List (Int × BoardEntity)
  deriving DecidableEq, Repr

/-- `Board::Board(int s)`: `cellCount = s * s`, empty containers. -/
def Board.make (s : Int) : Board :=
  ⟨s * s, [], []⟩

/-- `Board::canAddEntity(position)`: true iff no entity is keyed at
`position` in the entity map. -/
def Board.canAddEntity (b : Board) (position : Int) : Bool :=
  (b.entityMap.find? (fun kv => kv.1 == position)).isNone

/-- `Board::addBoardEntity(boardEntity)`: inserts into both containers iff
`canAddEntity(start)` holds, otherwise leaves the board unchanged. -/
def Board.addBoardEntity (b : Board) (boardEntity : BoardEntity) : Board :=
  if b.canAddEntity boardEntity.startIndex then
    { b with
      entitiesList := b.entitiesList ++ [boardEntity]
      entityMap := b.entityMap ++ [(boardEntity.startIndex, boardEntity)] }
  else b

/-- `Board::getEntity(position)`: the entity keyed at `position`, if any. -/
def Board.getEntity (b : Board) (position : Int) : Option BoardEntity :=
  (b.entityMap.find? (fun kv => kv.1 == position)).map Prod.snd

/-- `StandardSnakeAndLadderRules::isValidMove`. -/
def isValidMove (currentPos diceValue boardSize : Int) : Bool :=
  currentPos + diceValue ≤ boardSize

/-- `StandardSnakeAndLadderRules::calculateNewPosition`: land on
`currentPos + diceValue`; if an entity sits there the result is its
`endIndex`, otherwise the landed cell itself. -/
def calculateNewPosition (currentPos diceValue : Int) (board : Board) : Int :=
  let newPos := currentPos + diceValue
  match board.getEntity newPos with
  | some entity => entity.endIndex
  | none => newPos

/-- `StandardSnakeAndLadderRules::checkWinCondition`. -/
def checkWinCondition (position boardSize : Int) : Bool :=
  position == boardSize

/-- The fixed canonical entity set placed by
`StandardBoardSetupStrategy::setupBoard` on a 100-cell board, in source
order (10 snakes then 11 ladders). -/
def standardEntities : List BoardEntity :=
  [ (mkSnake 99 54).1, (mkSnake 95 75).1, (mkSnake 92 88).1,
    (mkSnake 89 68).1, (mkSnake 74 53).1, (mkSnake 64 60).1,
    (mkSnake 62 19).1, (mkSnake 49 11).1, (mkSnake 46 25).1,
    (mkSnake 16 6).1,
    (mkLadder 2 38).1, (mkLadder 7 14).1, (mkLadder 8 31).1,
    (mkLadder 15 26).1, (mkLadder 21 42).1, (mkLadder 28 84).1,
    (mkLadder 36 44).1, (mkLadder 51 67).1, (mkLadder 71 91).1,
    (mkLadder 78 98).1, (mkLadder 87 94).1 ]

/-- `StandardBoardSetupStrategy::setupBoard`: on any board whose cell count
is not 100 it places nothing and prints a configuration warning (returned
as the second component); on a 100-cell board it adds the canonical entity
set through `addBoardEntity`. -/
def standardSetupBoard (b : Board) : Board × List String :=
  if b.cellCount ≠ 100 then
    (b, ["Standard configuration supports only a 10x10 board (100 cells)."])
  else
    (standardEntities.foldl Board.addBoardEntity b, [])

/-- `SnakeAndLadderPlayer`: id, name, current position (starts at 0) and
win tally (starts at 0). -/
structure Player where
  id : Int
  playerName : String
  currentPosition : Int
  winCount : Int
  deriving DecidableEq, Repr

/-- `SnakeAndLadderPlayer::SnakeAndLadderPlayer(playerId, n)`. -/
def Player.make (playerId : Int) (n : String) : Player :=
  ⟨playerId, n, 0, 0⟩

/-- The state owned by `SnakeAndLadderGame`, plus explicit logs of its two
output channels: `notifyLog` records, in order, every message passed to
`notify` (each such message is delivered synchronously to all
`subscriberCount` registered observers), and `consoleOut` records, in
order, every line printed directly with `cout` by the play loop. -/
structure GameState where
  gameBoard : Board
  turnQueue : List Player
  subscriberCount : Nat
  notifyLog : List String
  consoleOut : List String
  isGameOver : Bool
  deriving DecidableEq, Repr

/-- `SnakeAndLadderGame::displayPlayerPositions`: the console lines printed
for the current queue. -/
def displayPlayerPositions (queue : List Player) : List String :=
  ["\n=== Current Player Positions ==="]
    ++ queue.map (fun p => p.playerName ++ ": " ++ toString p.currentPosition)
    ++ ["=============================="]

/-- One iteration of the `while(!isGameOver)` loop body in
`SnakeAndLadderGame::play`, with the dice roll supplied as an argument
(the randomizing `Dice` is the injectable external collaborator). The
front of `turnQueue` is the active player; `cout` lines are appended to
`consoleOut` and `notify` messages to `notifyLog` in source order.
An empty queue is returned unchanged (`play` guarantees at least two
players before the loop runs). -/
def playTurn (st : GameState) (rollValue : Int) : GameState :=
  match st.turnQueue with
  | [] => st
  | currentPlayer :: rest =>
    let out0 := st.consoleOut
      ++ ["\n" ++ currentPlayer.playerName
            ++ "\x27s turn. Press Enter to roll the dice..."]
      ++ ["Dice result: " ++ toString rollValue]
    let currentPos := currentPlayer.currentPosition
    if isValidMove currentPos rollValue st.gameBoard.cellCount then
      let intermediatePos := currentPos + rollValue
      let newPos := calculateNewPosition currentPos rollValue st.gameBoard
      let movedPlayer := { currentPlayer with currentPosition := newPos }
      let jumpLines : List String × List String :=
        match st.gameBoard.getEntity intermediatePos with
        | some entity =>
          if entity.name == "SNAKE" then
            (["Encountered snake at " ++ toString intermediatePos
                ++ ". Moving down to " ++ toString newPos ++ "."],
             [currentPlayer.playerName ++ " encountered a snake at "
                ++ toString intermediatePos ++ " and moved down to "
                ++ toString newPos])
          else
            (["Encountered ladder at " ++ toString intermediatePos
                ++ ". Moving up to " ++ toString newPos ++ "."],
             [currentPlayer.playerName ++ " encountered a ladder at "
                ++ toString intermediatePos ++ " and moved up to "
                ++ toString newPos])
        | none => ([], [])
      let log2 := st.notifyLog ++ jumpLines.2
        ++ [currentPlayer.playerName
              ++ " completed a move. Current position: " ++ toString newPos]
      let out2 := out0 ++ jumpLines.1
        ++ displayPlayerPositions (movedPlayer :: rest)
      if checkWinCondition newPos st.gameBoard.cellCount then
        { st with
          turnQueue := { movedPlayer with winCount := movedPlayer.winCount + 1 } :: rest
          consoleOut := out2
            ++ ["\n" ++ currentPlayer.playerName ++ " has won the game."]
          notifyLog := log2
            ++ ["Game concluded. Winner: " ++ currentPlayer.playerName]
          isGameOver := true }
      else
        { st with
          turnQueue := rest ++ [movedPlayer]
          consoleOut := out2
          notifyLog := log2 }
    else
      { st with
        turnQueue := rest ++ [currentPlayer]
        consoleOut := out0
          ++ ["Exact roll required to reach cell "
                ++ toString st.gameBoard.cellCount ++ "."] }

/-- `Board::display()`: the console lines printed before the loop starts. -/
def boardDisplayLines (b : Board) : List String :=
  let snakes := b.entitiesList.filter (fun e => e.name == "SNAKE")
  let ladders := b.entitiesList.filter (fun e => !(e.name == "SNAKE"))
  ["\n=== Board Configuration ==="]
    ++ ["Total Cells: " ++ toString b.cellCount]
    ++ ["\nSnakes: " ++ toString snakes.length]
    ++ (snakes.map (fun e =>
          "Snake: " ++ toString e.startIndex ++ " -> " ++ toString e.endIndex))
    ++ ["\nLadders: " ++ toString ladders.length]
    ++ (ladders.map (fun e =>
          "Ladder: " ++ toString e.startIndex ++ " -> " ++ toString e.endIndex))
    ++ ["========================="]

/-- The `while(!isGameOver)` loop of `SnakeAndLadderGame::play`, driven by
a finite list of dice rolls (a prefix of the infinite random stream): it
stops when `isGameOver` is set or the supplied rolls run out. -/
def playLoop (st : GameState) : List Int → GameState
  | [] => st
  | r :: rs => if st.isGameOver then st else playLoop (playTurn st r) rs

/-- `SnakeAndLadderGame::play`, driven by a finite list of dice rolls:
with fewer than two players it prints a message and returns at once;
otherwise it notifies "Game initiated.", displays the board and runs the
turn loop. -/
def play (st : GameState) (rolls : List Int) : GameState :=
  if st.turnQueue.length < 2 then
    { st with consoleOut := st.consoleOut
        ++ ["A minimum of 2 players is required to start the game."] }
  else
    playLoop
      { st with
        notifyLog := st.notifyLog ++ ["Game initiated."]
        consoleOut := st.consoleOut ++ boardDisplayLines st.gameBoard }
      rolls

/-- The win event of a turn: the queue has an active player, the roll is a
legal move, and the resolved position meets the win condition. -/
def winEvent (st : GameState) (r : Int) : Bool :=
  match st.turnQueue with
  | [] => false
  | p :: _ =>
    isValidMove p.currentPosition r st.gameBoard.cellCount &&
    checkWinCondition (calculateNewPosition p.currentPosition r st.gameBoard)
      st.gameBoard.cellCount

/-! ### Helper lemmas about `Board` -/

theorem getEntity_addBoardEntity_self (b : Board) (e : BoardEntity)
    (h : b.canAddEntity e.startIndex = true) :
    (b.addBoardEntity e).getEntity e.startIndex = some e := by
  simp only [Board.addBoardEntity, h, if_true, Board.getEntity]
  simp only [Board.canAddEntity, Option.isNone_iff_eq_none] at h
  rw [List.find?_append, h]
  simp

theorem addBoardEntity_of_cannot (b : Board) (e : BoardEntity)
    (h : b.canAddEntity e.startIndex = false) :
    b.addBoardEntity e = b := by
  simp [Board.addBoardEntity, h]

theorem canAddEntity_addBoardEntity_of_false (b : Board) (e : BoardEntity)
    (c : Int) (h : b.canAddEntity c = false) :
    (b.addBoardEntity e).canAddEntity c = false := by
  unfold Board.addBoardEntity
  split
  · simp only [Board.canAddEntity, Option.isNone_eq_false_iff,
      Option.isSome_iff_exists] at h ⊢
    obtain ⟨kv, hkv⟩ := h
    exact ⟨kv, by rw [List.find?_append, hkv]; rfl⟩
  · exact h

theorem canAddEntity_addBoardEntity_self (b : Board) (e : BoardEntity)
    (h : b.canAddEntity e.startIndex = true) :
    (b.addBoardEntity e).canAddEntity e.startIndex = false := by
  have h' : List.find? (fun kv => kv.1 == e.startIndex) b.entityMap = none := by
    simpa [Board.canAddEntity, Option.isNone_iff_eq_none] using h
  simp [Board.addBoardEntity, Board.canAddEntity, h', List.find?_append]

theorem canAddEntity_foldl_of_false (b : Board) (c : Int)
    (h : b.canAddEntity c = false) (ops : List BoardEntity) :
    (ops.foldl Board.addBoardEntity b).canAddEntity c = false := by
  induction ops generalizing b with
  | nil => exact h
  | cons e ops ih =>
    exact ih _ (canAddEntity_addBoardEntity_of_false b e c h)

/-! ### Helper lemmas about `playTurn` -/

theorem playTurn_illegal (st : GameState) (r : Int) (p : Player)
    (rest : List Player) (hq : st.turnQueue = p :: rest)
    (hv : isValidMove p.currentPosition r st.gameBoard.cellCount = false) :
    playTurn st r =
      { st with
        turnQueue := rest ++ [p]
        consoleOut := st.consoleOut
          ++ ["\n" ++ p.playerName ++ "\x27s turn. Press Enter to roll the dice..."]
          ++ ["Dice result: " ++ toString r]
          ++ ["Exact roll required to reach cell "
                ++ toString st.gameBoard.cellCount ++ "."] } := by
  simp [playTurn, hq, hv]

theorem playTurn_legal_win (st : GameState) (r : Int) (p : Player)
    (rest : List Player) (hq : st.turnQueue = p :: rest)
    (hv : isValidMove p.currentPosition r st.gameBoard.cellCount = true)
    (hw : checkWinCondition (calculateNewPosition p.currentPosition r st.gameBoard)
            st.gameBoard.cellCount = true) :
    (playTurn st r).turnQueue =
      { p with
        currentPosition := calculateNewPosition p.currentPosition r st.gameBoard
        winCount := p.winCount + 1 } :: rest ∧
    (playTurn st r).isGameOver = true ∧
    (playTurn st r).gameBoard = st.gameBoard := by
  simp [playTurn, hq, hv, hw]

theorem playTurn_legal_nowin (st : GameState) (r : Int) (p : Player)
    (rest : List Player) (hq : st.turnQueue = p :: rest)
    (hv : isValidMove p.currentPosition r st.gameBoard.cellCount = true)
    (hw : checkWinCondition (calculateNewPosition p.currentPosition r st.gameBoard)
            st.gameBoard.cellCount = false) :
    (playTurn st r).turnQueue =
      rest ++ [{ p with
        currentPosition := calculateNewPosition p.currentPosition r st.gameBoard }] ∧
    (playTurn st r).isGameOver = st.isGameOver ∧
    (playTurn st r).gameBoard = st.gameBoard := by
  simp [playTurn, hq, hv, hw]

/-! ### Concrete fixtures used by witnesses and counterexamples -/

/-- A 100-cell board holding a snake 10 → 5 whose destination cell 5 holds
a further snake 5 → 2: exercises the no-chaining behaviour. -/
def chainBoard : Board :=
  ((Board.make 10).addBoardEntity (mkSnake 10 5).1).addBoardEntity (mkSnake 5 2).1

/-- A bare 100-cell board with no entities. -/
def plainBoard : Board := Board.make 10

/-- Two players on the bare board, one console notifier registered; the
front player sits on cell 98. -/
def stNear : GameState :=
  ⟨plainBoard, [⟨1, "A", 98, 0⟩, ⟨2, "B", 3, 0⟩], 1, [], [], false⟩

/-- `stNear` after the game has concluded. -/
def stDone : GameState :=
  { stNear with isGameOver := true }

/-- A single registered player on the bare board. -/
def stOne : GameState :=
  ⟨plainBoard, [Player.make 1 "A"], 1, [], [], false⟩

/-! ### Claim theorems -/

/-- C1: `resolveMove` (`calculateNewPosition`) computes
`landed = currentPos + roll`, returns the `endIndex` of the entity at
`landed` when one exists and `landed` itself otherwise, and never
re-checks the returned cell for a further entity (no chaining: even when
an entity also sits at the jump destination, the result is still the
first entity's end). -/
theorem calculateNewPosition_spec :
    (∀ (currentPos roll : Int) (b : Board),
       b.getEntity (currentPos + roll) = none →
       calculateNewPosition currentPos roll b = currentPos + roll) ∧
    (∀ (currentPos roll : Int) (b : Board) (e : BoardEntity),
       b.getEntity (currentPos + roll) = some e →
       calculateNewPosition currentPos roll b = e.endIndex) ∧
    (∀ (currentPos roll : Int) (b : Board) (e eNext : BoardEntity),
       b.getEntity (currentPos + roll) = some e →
       b.getEntity e.endIndex = some eNext →
       calculateNewPosition currentPos roll b = e.endIndex) := by
  refine ⟨?_, ?_, ?_⟩
  · intro currentPos roll b h
    simp [calculateNewPosition, h]
  · intro currentPos roll b e h
    simp [calculateNewPosition, h]
  · intro currentPos roll b e eNext h _
    simp [calculateNewPosition, h]

/-- Witness for C1 on `chainBoard`: from 3 with roll 7 the player lands on
the snake at 10 and stops at 5, not at 2, although cell 5 holds a further
snake; from 0 with roll 4 the empty cell 4 is kept. -/
theorem calculateNewPosition_spec_witness :
    chainBoard.getEntity 10 = some ⟨.snake, 10, 5⟩ ∧
    chainBoard.getEntity 5 = some ⟨.snake, 5, 2⟩ ∧
    chainBoard.getEntity 4 = none ∧
    calculateNewPosition 3 7 chainBoard = 5 ∧
    calculateNewPosition 0 4 chainBoard = 4 := by
  have h10 : chainBoard.getEntity ((3 : Int) + 7) = some ⟨.snake, 10, 5⟩ := by decide
  have h5 : chainBoard.getEntity 5 = some ⟨.snake, 5, 2⟩ := by decide
  have h4 : chainBoard.getEntity ((0 : Int) + 4) = none := by decide
  refine ⟨by decide, h5, by decide, ?_, ?_⟩
  · exact calculateNewPosition_spec.2.2 3 7 chainBoard ⟨.snake, 10, 5⟩ ⟨.snake, 5, 2⟩ h10 h5
  · exact calculateNewPosition_spec.1 0 4 chainBoard h4

/-- C5: `place` (`addBoardEntity`) inserts the entity — keyed and
retrievable at its start cell — iff `canPlace` (`canAddEntity`) holds at
the time of the call; otherwise it is a silent no-op leaving the board
entirely unchanged (and, being a total function, raises no exception). -/
theorem addBoardEntity_spec (b : Board) (e : BoardEntity) :
    (b.canAddEntity e.startIndex = true →
       (b.addBoardEntity e).getEntity e.startIndex = some e ∧
       (b.addBoardEntity e).entityMap = b.entityMap ++ [(e.startIndex, e)]) ∧
    (b.canAddEntity e.startIndex = false → b.addBoardEntity e = b) := by
  refine ⟨fun h => ⟨getEntity_addBoardEntity_self b e h, ?_⟩,
          addBoardEntity_of_cannot b e⟩
  simp [Board.addBoardEntity, h]

/-- Witness for C5: cell 7 of `chainBoard` is free and a ladder placed
there becomes retrievable; cell 10 is occupied and a second placement
there is a no-op. -/
theorem addBoardEntity_spec_witness :
    chainBoard.canAddEntity 7 = true ∧
    (chainBoard.addBoardEntity (mkLadder 7 14).1).getEntity 7
      = some (mkLadder 7 14).1 ∧
    chainBoard.canAddEntity 10 = false ∧
    chainBoard.addBoardEntity (mkSnake 10 3).1 = chainBoard := by
  refine ⟨by decide, ?_, by decide, ?_⟩
  · exact ((addBoardEntity_spec chainBoard (mkLadder 7 14).1).1 (by decide)).1
  · exact (addBoardEntity_spec chainBoard (mkSnake 10 3).1).2 (by decide)

/-- C6: immediately after a successful `place` at a cell, `canPlace` of
that cell is false, and it stays false under any further sequence of board
operations (the only mutator the board offers is `addBoardEntity`, which
never removes entries: occupancy is write-once). -/
theorem canAddEntity_write_once (b : Board) (e : BoardEntity)
    (h : b.canAddEntity e.startIndex = true) (ops : List BoardEntity) :
    (b.addBoardEntity e).canAddEntity e.startIndex = false ∧
    (ops.foldl Board.addBoardEntity (b.addBoardEntity e)).canAddEntity
      e.startIndex = false := by
  have h0 := canAddEntity_addBoardEntity_self b e h
  exact ⟨h0, canAddEntity_foldl_of_false _ _ h0 ops⟩

/-- Witness for C6: placing a snake at 20 on the empty board makes cell 20
occupied, and it stays occupied after two further placements. -/
theorem canAddEntity_write_once_witness :
    (Board.make 10).canAddEntity 20 = true ∧
    ((Board.make 10).addBoardEntity (mkSnake 20 3).1).canAddEntity 20 = false ∧
    (([(mkLadder 20 30).1, (mkSnake 40 2).1].foldl Board.addBoardEntity
        ((Board.make 10).addBoardEntity (mkSnake 20 3).1)).canAddEntity 20
      = false) := by
  have h := canAddEntity_write_once (Board.make 10) (mkSnake 20 3).1 (by decide)
    [(mkLadder 20 30).1, (mkSnake 40 2).1]
  exact ⟨by decide, h.1, h.2⟩

/-- C7: a `Snake` with `end ≥ start` or a `Ladder` with `end ≤ start`
reports the violation (a warning message is produced) but construction
proceeds: the malformed entity keeps its given start and end values
intact, and it can still be placed on a board like any other entity. -/
theorem malformed_entity_spec :
    (∀ s e : Int, e ≥ s →
       (mkSnake s e).1 = ⟨.snake, s, e⟩ ∧ (mkSnake s e).2 ≠ []) ∧
    (∀ s e : Int, e ≤ s →
       (mkLadder s e).1 = ⟨.ladder, s, e⟩ ∧ (mkLadder s e).2 ≠ []) ∧
    (∀ (b : Board) (s e : Int), b.canAddEntity s = true →
       (b.addBoardEntity (mkSnake s e).1).getEntity s = some (mkSnake s e).1 ∧
       (b.addBoardEntity (mkLadder s e).1).getEntity s = some (mkLadder s e).1) := by
  refine ⟨?_, ?_, ?_⟩
  · intro s e h
    exact ⟨rfl, by simp [mkSnake, h]⟩
  · intro s e h
    exact ⟨rfl, by simp [mkLadder, h]⟩
  · intro b s e h
    exact ⟨getEntity_addBoardEntity_self b _ h, getEntity_addBoardEntity_self b _ h⟩

/-- Witness for C7: the malformed snake 5 → 9 is constructed intact with a
warning and can be placed on the empty board at cell 5. -/
theorem malformed_entity_spec_witness :
    (9 : Int) ≥ 5 ∧
    (mkSnake 5 9).1 = ⟨.snake, 5, 9⟩ ∧ (mkSnake 5 9).2 ≠ [] ∧
    (Board.make 10).canAddEntity 5 = true ∧
    ((Board.make 10).addBoardEntity (mkSnake 5 9).1).getEntity 5
      = some (mkSnake 5 9).1 := by
  refine ⟨by decide, (malformed_entity_spec.1 5 9 (by decide)).1,
    (malformed_entity_spec.1 5 9 (by decide)).2, by decide,
    (malformed_entity_spec.2.2 (Board.make 10) 5 9 (by decide)).1⟩

/-- C8: the Standard setup strategy performs no placement and emits a
configuration warning on any board whose cell count is not 100; on the
100-cell board built by `Board.make 10` it places exactly its canonical
entity set (each canonical entity keyed at its start cell, in order), with
no warning. -/
theorem standardSetupBoard_spec :
    (∀ b : Board, b.cellCount ≠ 100 →
       (standardSetupBoard b).1 = b ∧ (standardSetupBoard b).2 ≠ []) ∧
    ((standardSetupBoard (Board.make 10)).2 = [] ∧
     (standardSetupBoard (Board.make 10)).1.entityMap
       = standardEntities.map (fun e => (e.startIndex, e))) := by
  refine ⟨?_, by decide, by decide⟩
  intro b h
  simp [standardSetupBoard, h]

/-- Witness for C8 on a 9-cell board: no placement, a warning is emitted. -/
theorem standardSetupBoard_spec_witness :
    (Board.make 3).cellCount ≠ 100 ∧
    (standardSetupBoard (Board.make 3)).1 = Board.make 3 ∧
    (standardSetupBoard (Board.make 3)).2 ≠ [] := by
  refine ⟨by decide, (standardSetupBoard_spec.1 (Board.make 3) (by decide)).1,
    (standardSetupBoard_spec.1 (Board.make 3) (by decide)).2⟩

/-- C2: `isWin` (`checkWinCondition`) is true iff the position equals the
board size exactly; a turn whose roll would land beyond the board size is
filtered by `isValidMove` and never triggers a win (game-over flag and
every win counter are untouched, the player is only rotated); and when a
win is detected the engine increments the winning player's win counter. -/
theorem checkWinCondition_spec :
    (∀ position boardSize : Int,
       checkWinCondition position boardSize = true ↔ position = boardSize) ∧
    (∀ (st : GameState) (r : Int) (p : Player) (rest : List Player),
       st.turnQueue = p :: rest →
       p.currentPosition + r > st.gameBoard.cellCount →
       (playTurn st r).isGameOver = st.isGameOver ∧
       (playTurn st r).turnQueue = rest ++ [p]) ∧
    (∀ (st : GameState) (r : Int) (p : Player) (rest : List Player),
       st.turnQueue = p :: rest →
       isValidMove p.currentPosition r st.gameBoard.cellCount = true →
       checkWinCondition (calculateNewPosition p.currentPosition r st.gameBoard)
         st.gameBoard.cellCount = true →
       (playTurn st r).turnQueue =
         { p with
           currentPosition := calculateNewPosition p.currentPosition r st.gameBoard
           winCount := p.winCount + 1 } :: rest) := by
  refine ⟨?_, ?_, ?_⟩
  · intro position boardSize
    simp [checkWinCondition]
  · intro st r p rest hq hgt
    have hv : isValidMove p.currentPosition r st.gameBoard.cellCount = false := by
      simp only [isValidMove, decide_eq_false_iff_not, not_le]
      omega
    rw [playTurn_illegal st r p rest hq hv]
    exact ⟨rfl, rfl⟩
  · intro st r p rest hq hv hw
    exact (playTurn_legal_win st r p rest hq hv hw).1

/-- Witness for C2: from cell 98 on the 100-cell board, roll 3 overshoots
(no win, rotation only) and roll 2 lands exactly on 100 (win counter
incremented). -/
theorem checkWinCondition_spec_witness :
    (checkWinCondition 100 100 = true ↔ (100 : Int) = 100) ∧
    ((98 : Int) + 3 > stNear.gameBoard.cellCount) ∧
    ((playTurn stNear 3).isGameOver = stNear.isGameOver ∧
     (playTurn stNear 3).turnQueue = [⟨2, "B", 3, 0⟩] ++ [⟨1, "A", 98, 0⟩]) ∧
    (playTurn stNear 2).turnQueue = ⟨1, "A", 100, 1⟩ :: [⟨2, "B", 3, 0⟩] := by
  refine ⟨checkWinCondition_spec.1 100 100, by decide,
    checkWinCondition_spec.2.1 stNear 3 ⟨1, "A", 98, 0⟩ [⟨2, "B", 3, 0⟩] rfl
      (by decide), ?_⟩
  exact checkWinCondition_spec.2.2 stNear 2 ⟨1, "A", 98, 0⟩ [⟨2, "B", 3, 0⟩] rfl
    (by decide) (by decide)

/-- C3 counterexample: with one notifier registered, the illegal turn
(98 + 3 > 100) delivers no notification at all — the notify log is
unchanged, so no registered Notifier receives an "exact roll required"
message; the report goes to the console instead. -/
theorem illegal_move_no_notification :
    stNear.subscriberCount = 1 ∧
    (98 : Int) + 3 > stNear.gameBoard.cellCount ∧
    (playTurn stNear 3).notifyLog = stNear.notifyLog ∧
    (playTurn stNear 3).consoleOut =
      ["\nA\x27s turn. Press Enter to roll the dice...", "Dice result: 3",
       "Exact roll required to reach cell 100."] := by
  refine ⟨rfl, by decide, rfl, rfl⟩

/-- C3 amended: on an illegal turn the engine reports "exact roll
required" on its console output only — no message is passed to the
Notifier interface (the notify log is unchanged) — the active player's
position is unchanged, and the only engine-state change beyond that
console line is rotating the active player from the front to the back of
the turn queue. -/
theorem illegal_move_console_only (st : GameState) (r : Int) (p : Player)
    (rest : List Player) (hq : st.turnQueue = p :: rest)
    (hgt : p.currentPosition + r > st.gameBoard.cellCount) :
    (playTurn st r).notifyLog = st.notifyLog ∧
    (playTurn st r).subscriberCount = st.subscriberCount ∧
    (playTurn st r).turnQueue = rest ++ [p] ∧
    (playTurn st r).gameBoard = st.gameBoard ∧
    (playTurn st r).isGameOver = st.isGameOver ∧
    (playTurn st r).consoleOut = st.consoleOut
      ++ ["\n" ++ p.playerName ++ "\x27s turn. Press Enter to roll the dice..."]
      ++ ["Dice result: " ++ toString r]
      ++ ["Exact roll required to reach cell "
            ++ toString st.gameBoard.cellCount ++ "."] := by
  have hv : isValidMove p.currentPosition r st.gameBoard.cellCount = false := by
    simp only [isValidMove, decide_eq_false_iff_not, not_le]
    omega
  rw [playTurn_illegal st r p rest hq hv]
  simp

/-- Witness for C3 amended, at the concrete illegal turn of `stNear`. -/
theorem illegal_move_console_only_witness :
    ((98 : Int) + 3 > stNear.gameBoard.cellCount) ∧
    (playTurn stNear 3).notifyLog = stNear.notifyLog ∧
    (playTurn stNear 3).turnQueue = [⟨2, "B", 3, 0⟩] ++ [⟨1, "A", 98, 0⟩] := by
  have h := illegal_move_console_only stNear 3 ⟨1, "A", 98, 0⟩ [⟨2, "B", 3, 0⟩]
    rfl (by decide)
  exact ⟨by decide, h.1, h.2.2.1⟩

/-- C4: `gameOver` is terminal — once set, the loop processes no further
turns and the whole state (positions, queue, win counts, logs) is frozen —
and, starting from a running state, a turn sets it exactly at the win
event (the active player makes a legal move whose resolved position meets
the win condition); hence it flips from false to true at most once. -/
theorem gameOver_terminal_spec :
    (∀ (st : GameState) (rolls : List Int),
       st.isGameOver = true → playLoop st rolls = st) ∧
    (∀ (st : GameState) (r : Int), st.isGameOver = false →
       ((playTurn st r).isGameOver = true ↔ winEvent st r = true)) := by
  constructor
  · intro st rolls h
    cases rolls with
    | nil => rfl
    | cons r rs => simp [playLoop, h]
  · intro st r h
    match hq : st.turnQueue with
    | [] =>
      simp [playTurn, winEvent, hq, h]
    | p :: rest =>
      cases hv : isValidMove p.currentPosition r st.gameBoard.cellCount with
      | false =>
        rw [playTurn_illegal st r p rest hq hv]
        simp [winEvent, hq, hv, h]
      | true =>
        cases hw : checkWinCondition
            (calculateNewPosition p.currentPosition r st.gameBoard)
            st.gameBoard.cellCount with
        | false =>
          rw [(playTurn_legal_nowin st r p rest hq hv hw).2.1]
          simp [winEvent, hq, hv, hw, h]
        | true =>
          rw [(playTurn_legal_win st r p rest hq hv hw).2.1]
          simp [winEvent, hq, hv, hw]

/-- Witness for C4: a finished state absorbs any further rolls, and the
winning roll 2 from cell 98 is exactly a win event and sets `gameOver`. -/
theorem gameOver_terminal_spec_witness :
    stDone.isGameOver = true ∧
    playLoop stDone [5, 2] = stDone ∧
    stNear.isGameOver = false ∧
    winEvent stNear 2 = true ∧
    winEvent stNear 3 = false ∧
    (playTurn stNear 2).isGameOver = true := by
  refine ⟨rfl, gameOver_terminal_spec.1 stDone [5, 2] rfl, rfl, by decide,
    by decide, ?_⟩
  exact (gameOver_terminal_spec.2 stNear 2 rfl).2 (by decide)

/-- C9: with fewer than two registered players, `play` refuses to run: it
prints the report line and returns with the turn queue (hence every
player's position and win count), the game-over flag, the board and the
notify log all at their initial values. -/
theorem play_requires_two_players (st : GameState) (rolls : List Int)
    (h : st.turnQueue.length < 2) :
    (play st rolls).turnQueue = st.turnQueue ∧
    (play st rolls).isGameOver = st.isGameOver ∧
    (play st rolls).notifyLog = st.notifyLog ∧
    (play st rolls).gameBoard = st.gameBoard ∧
    (play st rolls).consoleOut = st.consoleOut
      ++ ["A minimum of 2 players is required to start the game."] := by
  simp [play, h]

/-- Witness for C9 on the one-player state `stOne`. -/
theorem play_requires_two_players_witness :
    stOne.turnQueue.length < 2 ∧
    (play stOne [3, 4]).turnQueue = stOne.turnQueue ∧
    (play stOne [3, 4]).isGameOver = stOne.isGameOver ∧
    (play stOne [3, 4]).notifyLog = stOne.notifyLog := by
  have h := play_requires_two_players stOne [3, 4] (by decide)
  exact ⟨by decide, h.1, h.2.1, h.2.2.1⟩

/-- C10: in a single turn only the front player is touched — on an illegal
move the queue becomes the rest followed by the unchanged front player; on
a legal non-winning move the rest followed by the front player moved to
the resolved position; on a winning move the moved front player with its
win counter incremented stays at the front, order untouched — and in every
case the queue afterwards holds exactly the same multiset of players
(identified by id and name) as before. -/
theorem playTurn_frame (st : GameState) (r : Int) (p : Player)
    (rest : List Player) (hq : st.turnQueue = p :: rest) :
    (isValidMove p.currentPosition r st.gameBoard.cellCount = false →
       (playTurn st r).turnQueue = rest ++ [p]) ∧
    (isValidMove p.currentPosition r st.gameBoard.cellCount = true →
       checkWinCondition (calculateNewPosition p.currentPosition r st.gameBoard)
         st.gameBoard.cellCount = true →
       (playTurn st r).turnQueue =
         { p with
           currentPosition := calculateNewPosition p.currentPosition r st.gameBoard
           winCount := p.winCount + 1 } :: rest) ∧
    (isValidMove p.currentPosition r st.gameBoard.cellCount = true →
       checkWinCondition (calculateNewPosition p.currentPosition r st.gameBoard)
         st.gameBoard.cellCount = false →
       (playTurn st r).turnQueue =
         rest ++ [{ p with
           currentPosition := calculateNewPosition p.currentPosition r st.gameBoard }]) ∧
    ((playTurn st r).turnQueue.map (fun q => (q.id, q.playerName))).Perm
      (st.turnQueue.map (fun q => (q.id, q.playerName))) := by
  refine ⟨fun hv => by rw [playTurn_illegal st r p rest hq hv],
    fun hv hw => (playTurn_legal_win st r p rest hq hv hw).1,
    fun hv hw => (playTurn_legal_nowin st r p rest hq hv hw).1, ?_⟩
  cases hv : isValidMove p.currentPosition r st.gameBoard.cellCount with
  | false =>
    rw [playTurn_illegal st r p rest hq hv, hq]
    simp [List.perm_append_singleton]
  | true =>
    cases hw : checkWinCondition
        (calculateNewPosition p.currentPosition r st.gameBoard)
        st.gameBoard.cellCount with
    | false =>
      rw [(playTurn_legal_nowin st r p rest hq hv hw).1, hq]
      simp [List.perm_append_singleton]
    | true =>
      rw [(playTurn_legal_win st r p rest hq hv hw).1, hq]
      simp

/-- Witness for C10: the winning turn of `stNear` leaves the queue order
untouched with only the front player changed, and the player multiset is
preserved. -/
theorem playTurn_frame_witness :
    stNear.turnQueue = ⟨1, "A", 98, 0⟩ :: [⟨2, "B", 3, 0⟩] ∧
    (playTurn stNear 2).turnQueue = ⟨1, "A", 100, 1⟩ :: [⟨2, "B", 3, 0⟩] ∧
    ((playTurn stNear 2).turnQueue.map (fun q => (q.id, q.playerName))).Perm
      (stNear.turnQueue.map (fun q => (q.id, q.playerName))) := by
  have h := playTurn_frame stNear 2 ⟨1, "A", 98, 0⟩ [⟨2, "B", 3, 0⟩] rfl
  exact ⟨rfl, h.2.1 (by decide) (by decide), h.2.2.2⟩

end SnakeAndLadder
